import Mathlib

/-!
Verification of the tap-detection training/evaluation pipeline
(`modello_py/train_model.py` and `modello_py/evaluate_model.py`).

The Python scripts are shallowly embedded: the filesystem is a function from
directory paths to optional listings, a sample file's parsed content is either
a JSON-decode failure or a list of frame records, numeric signal values are
rationals, and the recursive `__getitem__` is given explicit fuel (fuel
exhaustion models the unbounded recursion that Python aborts with a
`RecursionError`).  `print` calls that the spec treats as logging are modelled
as explicit log lists.
-/

namespace TapDetection

/-! ### Configuration constants (`train_model.py` lines 11-17, `evaluate_model.py` lines 12-17) -/

def DATA_DIR : String := "dataset/train"

def TEST_DATA_DIR : String := "dataset/test"

def WINDOW_SIZE : Nat := 25

def NUM_FEATURES : Nat := 3

def NUM_CLASSES : Nat := 2

def BATCH_SIZE : Nat := 16

def NUM_EPOCHS : Nat := 500

/-- `BATCH_SIZE` of `evaluate_model.py` (line 17). -/
def EVAL_BATCH_SIZE : Nat := 8

/-! ### Data model: sample files and the filesystem -/

/-- One per-frame record of a gesture-sample JSON file: a mapping of named
numeric signals to values, each possibly absent (`item.get(key, 0.0)` in the
source supplies the default).  Signal values are modelled as rationals. -/
structure Frame where
  relativeYVelocity : Option Rat := none
  relativeYAcceleration : Option Rat := none
  stabilityRatio : Option Rat := none
deriving DecidableEq

/-- Result of `json.load` on a sample file: either a `JSONDecodeError`
(`malformed`) or a JSON array of per-frame records (`frames`). -/
inductive FileContent where
  | malformed : FileContent
  | frames : List Frame → FileContent
deriving DecidableEq

/-- The filesystem seen by `os.listdir` / `os.path.isdir`: a directory path
maps to `some` listing (filenames, in enumeration order) when the directory
exists, and to `none` otherwise. -/
structure FS where
  listDir : String → Option (List String)

/-! ### Dataset Index (`HandGestureDataset`, train_model.py lines 20-77) -/

/-- The state built by `HandGestureDataset.__init__`: the parallel lists
`self.data_files` and `self.labels`, plus the warnings printed for missing
class directories. -/
structure DatasetEntries where
  data_files : List String
  labels : List Nat
  log : List String
deriving DecidableEq

/-- `self.label_map = {'sfondo': 0, 'tap': 1}` (line 30); Python dicts iterate
in insertion order. -/
def label_map : List (String × Nat) := [("sfondo", 0), ("tap", 1)]

/-- Python's `str.endswith`, embedded over the strings' character data. -/
def endswith (s suffix : String) : Bool := suffix.data.isSuffixOf s.data

/-- `HandGestureDataset.__init__` (lines 25-42): for each class in
`label_map` order, if `root/<class>` is not a directory print a warning and
continue, otherwise append every `*.json` filename (in listing order) with
that class's label index. -/
def buildDataset (fs : FS) (data_dir : String) : DatasetEntries :=
  label_map.foldl
    (fun acc p =>
      let class_dir := data_dir ++ "/" ++ p.1
      match fs.listDir class_dir with
      | none =>
          { acc with log := acc.log ++ ["Attenzione: La cartella " ++ class_dir ++ " non esiste."] }
      | some filenames =>
          let js := filenames.filter (fun f => endswith f ".json")
          { acc with
              data_files := acc.data_files ++ js.map (fun f => class_dir ++ "/" ++ f)
              labels := acc.labels ++ js.map (fun _ => p.2) })
    ⟨[], [], []⟩

/-- `HandGestureDataset.__len__` (lines 44-46). -/
def DatasetEntries.size (ds : DatasetEntries) : Nat := ds.data_files.length

/-! ### Sample Loader (`HandGestureDataset.__getitem__`, lines 48-77) -/

/-- Feature extraction (lines 60-65): the three signal rows, in the fixed
order velocity, acceleration, stability ratio, with absent keys defaulting
to `0.0`. -/
def extractFeatures (data : List Frame) : List (List Rat) :=
  [data.map (fun item => item.relativeYVelocity.getD 0),
   data.map (fun item => item.relativeYAcceleration.getD 0),
   data.map (fun item => item.stabilityRatio.getD 0)]

/-- `np.array(rows).shape` for a rectangular list-of-rows matrix. -/
def npShape (m : List (List Rat)) : Nat × Nat := (m.length, (m.headD []).length)

/-- `torch.zeros(NUM_FEATURES, WINDOW_SIZE)` (line 57). -/
def torchZeros : List (List Rat) :=
  List.replicate NUM_FEATURES (List.replicate WINDOW_SIZE (0 : Rat))

/-- `HandGestureDataset.__getitem__` (lines 48-77).  `content` is the parsed
content of each file path; the result is the returned `(features, label)`
pair together with the list of printed messages.  The recursive wrong-shape
fallthrough (line 71) consumes one unit of fuel; exhausted fuel (`none`)
models the `RecursionError` Python raises when the recursion never
terminates. -/
def getItem (content : String → FileContent) (ds : DatasetEntries) :
    Nat → Nat → Option (List (List Rat) × Nat) × List String
  | 0, _ => (none, [])
  | fuel + 1, idx =>
      let file_path := ds.data_files.getD idx ""
      match content file_path with
      | FileContent.malformed =>
          (some (torchZeros, 0), ["Errore nel leggere il file JSON: " ++ file_path])
      | FileContent.frames data =>
          let features := extractFeatures data
          if npShape features ≠ (NUM_FEATURES, WINDOW_SIZE) then
            let r := getItem content ds fuel ((idx + 1) % ds.size)
            (r.1, ("Attenzione: Il file " ++ file_path ++ " ha una forma errata. Verra saltato.") :: r.2)
          else
            (some (features, ds.labels.getD idx 0), [])

/-- An index whose sample `__getitem__` resolves without a recursive step:
the file is malformed JSON (zero-substitution) or has the correct shape. -/
def recoverableAt (content : String → FileContent) (ds : DatasetEntries) (i : Nat) : Prop :=
  content (ds.data_files.getD i "") = FileContent.malformed ∨
    ∃ data, content (ds.data_files.getD i "") = FileContent.frames data ∧
      npShape (extractFeatures data) = (NUM_FEATURES, WINDOW_SIZE)

/-! ### Top-level empty-dataset checks (train lines 120-123, eval lines 21-24) -/

/-- Outcome of the top-level setup: either the process exits via `exit()`
(with the given process exit status) before any training/evaluation work, or
it proceeds to build the loader and run. -/
inductive SetupOutcome where
  | exited : Nat → SetupOutcome
  | proceed : SetupOutcome
deriving DecidableEq

/-- `train_model.py` lines 120-123: build the dataset and call bare `exit()`
when it is empty.  A bare `exit()` raises `SystemExit(None)`, which
terminates the process with exit status `0`. -/
def trainSetup (fs : FS) : SetupOutcome :=
  let train_dataset := buildDataset fs DATA_DIR
  if train_dataset.size = 0 then SetupOutcome.exited 0 else SetupOutcome.proceed

/-- `evaluate_model.py` lines 21-24: same check against the test directory. -/
def evalSetup (fs : FS) : SetupOutcome :=
  let test_dataset := buildDataset fs TEST_DATA_DIR
  if test_dataset.size = 0 then SetupOutcome.exited 0 else SetupOutcome.proceed

/-! ### Batch Assembler (`torch.utils.data.DataLoader` batching) -/

/-- The batching loop of `DataLoader`'s `BatchSampler`: accumulate samples
into the current batch, emitting it when it reaches `b` elements; at the end
of the pass the final under-sized batch is emitted only when `drop_last` is
off.  `acc` holds the current batch in reverse order. -/
def batchAccum (b : Nat) (drop_last : Bool) : List α → List α → List (List α)
  | acc, [] =>
      if drop_last then [] else if acc.isEmpty then [] else [acc.reverse]
  | acc, x :: xs =>
      let acc' := x :: acc
      if acc'.length = b then acc'.reverse :: batchAccum b drop_last [] xs
      else batchAccum b drop_last acc' xs

/-- One epoch's batch sequence over the samples `l`. -/
def batches (b : Nat) (drop_last : Bool) (l : List α) : List (List α) :=
  batchAccum b drop_last [] l

/-! ### Evaluation metrics (`evaluate_model.py` lines 52-62) -/

/-- `sklearn.metrics.accuracy_score`: the fraction of positions where the
prediction equals the true label. -/
def accuracy_score (y_true y_pred : List Nat) : Rat :=
  (((y_true.zip y_pred).filter (fun q => q.1 == q.2)).length : Rat) / (y_true.length : Rat)

/-- `sklearn.metrics.confusion_matrix` with an explicit label order: entry
`(i, j)` counts the samples whose true label is `labels[i]` and predicted
label is `labels[j]` (rows = truth, columns = prediction).  The script
passes the class names `['sfondo', 'tap']`; since the name↔index mapping is
a bijection this is stated directly on label indices. -/
def confusion_matrix (labels : List Nat) (y_true y_pred : List Nat) : List (List Nat) :=
  labels.map (fun i => labels.map (fun j =>
    ((y_true.zip y_pred).filter (fun q => q.1 == i && q.2 == j)).length))

/-! ### Training loop (`train_model.py` lines 136-149) -/

/-- Outcome of the epoch loop: `nameError` models the `NameError` raised at
line 149 when `loss.item()` is evaluated but `loss` was never assigned. -/
inductive TrainRun where
  | nameError : TrainRun
  | completed : TrainRun
deriving DecidableEq

/-- The epoch loop (lines 136-149): each epoch runs the inner loop over the
epoch's batches (assigning `loss` once per batch) and then prints
`loss.item()`.  `lossDefined` tracks whether the module-level `loss` variable
has ever been assigned; reading it unassigned raises `NameError`. -/
def trainingEpochs (batchCount : Nat) : Nat → Bool → TrainRun
  | 0, _ => TrainRun.completed
  | e + 1, lossDefined =>
      let lossDefined' := lossDefined || decide (0 < batchCount)
      if lossDefined' then trainingEpochs batchCount e lossDefined'
      else TrainRun.nameError

/-- The whole training loop for a dataset of `n` samples: `NUM_EPOCHS` epochs
over the `drop_last` batches of the shuffled index sequence (the number of
batches per epoch does not depend on the shuffle order). -/
def trainingRun (n : Nat) : TrainRun :=
  trainingEpochs (batches BATCH_SIZE true (List.range n)).length NUM_EPOCHS false

/-! ### Statement helpers and concrete fixtures -/

/-- Number of `*.json` files in a directory listing (0 for a missing
directory): the count the spec says `size()` must equal. -/
def jsonFileCount (listing : Option (List String)) : Nat :=
  match listing with
  | none => 0
  | some filenames => (filenames.filter (fun f => endswith f ".json")).length

/-- A training tree whose `sfondo` directory holds two sample files and whose
`tap` directory is missing. -/
def fsW : FS :=
  ⟨fun s => if s = "dataset/train/sfondo" then some ["a.json", "b.json"] else none⟩

/-- The dataset enumerated from `fsW`. -/
def dsW : DatasetEntries := buildDataset fsW DATA_DIR

/-- Sample contents over `dsW`: the first file parses but has zero frames
(shape `(3, 0)`), the second is malformed JSON. -/
def contentW : String → FileContent := fun s =>
  if s = "dataset/train/sfondo/a.json" then FileContent.frames [] else FileContent.malformed

/-- A training tree holding exactly one sample file, whose content is a
valid JSON empty array: every index of the enumerated dataset is
wrong-shaped. -/
def fsBad : FS :=
  ⟨fun s => if s = "dataset/train/sfondo" then some ["a.json"] else none⟩

/-- The one-entry dataset enumerated from `fsBad`. -/
def dsBad : DatasetEntries := buildDataset fsBad DATA_DIR

/-- Every file parses as the empty JSON array (wrong shape `(3, 0)`). -/
def contentBad : String → FileContent := fun _ => FileContent.frames []

/-- A 25-frame sample whose frames carry only a velocity value. -/
def framesTwentyFive : List Frame := List.replicate 25 { relativeYVelocity := some 1 }

/-- Contents all equal to the 25-frame sample. -/
def contentGood : String → FileContent := fun _ => FileContent.frames framesTwentyFive

/-- The filesystem in which no class directory exists anywhere. -/
def fsEmpty : FS := ⟨fun _ => none⟩

/-- A training tree with both class directories present, one non-JSON file
among them. -/
def fsA : FS :=
  ⟨fun s =>
    if s = "dataset/train/sfondo" then some ["a.json", "nope.txt"]
    else if s = "dataset/train/tap" then some ["t1.json", "t2.json"]
    else none⟩

/-- Like `fsA` on the two class directories, but answering differently
elsewhere in the filesystem. -/
def fsA2 : FS :=
  ⟨fun s =>
    if s = "dataset/train/sfondo" then some ["a.json", "nope.txt"]
    else if s = "dataset/train/tap" then some ["t1.json", "t2.json"]
    else if s = "unrelated" then some ["x.json"]
    else none⟩

/-! ### Helper lemmas about the Sample Loader -/

/-- The assembled matrix always has 3 rows of length `data.length`, so its
numpy shape is `(3, data.length)`. -/
lemma npShape_extractFeatures (data : List Frame) :
    npShape (extractFeatures data) = (3, data.length) := by
  simp [npShape, extractFeatures]

/-- Unfolding `__getitem__` on a malformed-JSON file. -/
lemma getItem_malformed (content : String → FileContent) (ds : DatasetEntries)
    (fuel idx : Nat) (h : content (ds.data_files.getD idx "") = FileContent.malformed) :
    getItem content ds (fuel + 1) idx =
      (some (torchZeros, 0),
        ["Errore nel leggere il file JSON: " ++ ds.data_files.getD idx ""]) := by
  simp only [getItem, h]

/-- Unfolding `__getitem__` on a well-shaped parsed file. -/
lemma getItem_wellShaped (content : String → FileContent) (ds : DatasetEntries)
    (fuel idx : Nat) (data : List Frame)
    (hc : content (ds.data_files.getD idx "") = FileContent.frames data)
    (hlen : data.length = WINDOW_SIZE) :
    getItem content ds (fuel + 1) idx =
      (some (extractFeatures data, ds.labels.getD idx 0), []) := by
  have hsh : ¬ (npShape (extractFeatures data) ≠ (NUM_FEATURES, WINDOW_SIZE)) := by
    rw [npShape_extractFeatures, hlen]
    decide
  simp only [getItem, hc, if_neg hsh]

/-- Unfolding `__getitem__` on a wrong-shaped parsed file: the result is the
recursive call's result, with the warning prepended to its log. -/
lemma getItem_wrongShape (content : String → FileContent) (ds : DatasetEntries)
    (fuel idx : Nat) (data : List Frame)
    (hc : content (ds.data_files.getD idx "") = FileContent.frames data)
    (hshape : npShape (extractFeatures data) ≠ (NUM_FEATURES, WINDOW_SIZE)) :
    getItem content ds (fuel + 1) idx =
      ((getItem content ds fuel ((idx + 1) % ds.size)).1,
        ("Attenzione: Il file " ++ ds.data_files.getD idx "" ++
            " ha una forma errata. Verra saltato.") ::
          (getItem content ds fuel ((idx + 1) % ds.size)).2) := by
  simp only [getItem, hc, if_pos hshape]

/-- A recoverable index yields a defined result with any positive fuel. -/
lemma getItem_isSome_of_recoverableAt (content : String → FileContent)
    (ds : DatasetEntries) (fuel i : Nat) (h : recoverableAt content ds i) :
    (getItem content ds (fuel + 1) i).1.isSome := by
  rcases h with h | ⟨data, hc, hshape⟩
  · rw [getItem_malformed content ds fuel i h]
    rfl
  · rw [npShape_extractFeatures] at hshape
    have hlen : data.length = WINDOW_SIZE := by
      simpa [NUM_FEATURES] using congrArg Prod.snd hshape
    rw [getItem_wellShaped content ds fuel i data hc hlen]
    rfl

/-- Walking the skip-forward chain: if the index reached after `d` wrap-around
steps is recoverable, `d + 1` units of fuel suffice. -/
lemma getItem_isSome_of_reaches (content : String → FileContent) (ds : DatasetEntries) :
    ∀ d i, i < ds.size → recoverableAt content ds ((i + d) % ds.size) →
      (getItem content ds (d + 1) i).1.isSome := by
  intro d
  induction d with
  | zero =>
      intro i hi h
      rw [Nat.add_zero, Nat.mod_eq_of_lt hi] at h
      exact getItem_isSome_of_recoverableAt content ds 0 i h
  | succ d ih =>
      intro i hi h
      by_cases hrec : recoverableAt content ds i
      · exact getItem_isSome_of_recoverableAt content ds (d + 1) i hrec
      · cases hc : content (ds.data_files.getD i "") with
        | malformed => exact absurd (Or.inl hc) hrec
        | frames data =>
            by_cases hshape : npShape (extractFeatures data) = (NUM_FEATURES, WINDOW_SIZE)
            · exact absurd (Or.inr ⟨data, hc, hshape⟩) hrec
            · rw [getItem_wrongShape content ds (d + 1) i data hc hshape]
              have hn : 0 < ds.size := Nat.zero_lt_of_lt hi
              have hi' : (i + 1) % ds.size < ds.size := Nat.mod_lt _ hn
              have hmod : ((i + 1) % ds.size + d) % ds.size = (i + (d + 1)) % ds.size := by
                rw [Nat.mod_add_mod]
                congr 1
                omega
              exact ih ((i + 1) % ds.size) hi' (by rw [hmod]; exact h)

/-! ### Claim theorems -/

/-- C1: for `0 ≤ i < size()`, if the file at index `i` parses as JSON but the
assembled matrix is not of shape `(3, WINDOW_SIZE)`, then `__getitem__(i)`
returns exactly the result of `__getitem__((i+1) % size())` (the recursive
call at line 71 consumes one unit of fuel in the embedding; the returned
value is the first component, the prints the second). -/
theorem claim_C1_defective_skip_forward (content : String → FileContent)
    (ds : DatasetEntries) (idx : Nat) (data : List Frame)
    (_hidx : idx < ds.size)
    (hc : content (ds.data_files.getD idx "") = FileContent.frames data)
    (hshape : npShape (extractFeatures data) ≠ (NUM_FEATURES, WINDOW_SIZE)) :
    ∀ fuel, (getItem content ds (fuel + 1) idx).1 =
      (getItem content ds fuel ((idx + 1) % ds.size)).1 := by
  intro fuel
  rw [getItem_wrongShape content ds fuel idx data hc hshape]

/-- C4: a malformed-JSON file makes `__getitem__` return the all-zero
`(3, WINDOW_SIZE)` matrix with label index 0 and log the failure, whatever
the dataset's label for that index (hence whatever class subdirectory the
file came from). -/
theorem claim_C4_malformed_zero_substitution (content : String → FileContent)
    (ds : DatasetEntries) (idx fuel : Nat)
    (h : content (ds.data_files.getD idx "") = FileContent.malformed) :
    getItem content ds (fuel + 1) idx =
      (some (torchZeros, 0),
        ["Errore nel leggere il file JSON: " ++ ds.data_files.getD idx ""]) ∧
    npShape torchZeros = (3, WINDOW_SIZE) ∧
    ∀ row ∈ torchZeros, ∀ x ∈ row, x = 0 := by
  refine ⟨getItem_malformed content ds fuel idx h, by decide, ?_⟩
  intro row hrow x hx
  simp only [torchZeros] at hrow
  rw [List.eq_of_mem_replicate hrow] at hx
  exact List.eq_of_mem_replicate hx

/-- C6: a valid JSON file with exactly `WINDOW_SIZE` frame records yields the
extracted matrix (shape `(3, WINDOW_SIZE)`, nothing printed) paired with the
index's own label; row 0 is the velocity signal, row 1 the acceleration
signal, row 2 the stability-ratio signal, each defaulting to 0 for an absent
key. -/
theorem claim_C6_valid_sample_matrix (content : String → FileContent)
    (ds : DatasetEntries) (idx fuel : Nat) (data : List Frame)
    (hc : content (ds.data_files.getD idx "") = FileContent.frames data)
    (hlen : data.length = WINDOW_SIZE) :
    getItem content ds (fuel + 1) idx =
      (some (extractFeatures data, ds.labels.getD idx 0), []) ∧
    npShape (extractFeatures data) = (3, WINDOW_SIZE) ∧
    ∀ k, k < WINDOW_SIZE →
      ((extractFeatures data).getD 0 []).getD k 1 =
        ((data.getD k {}).relativeYVelocity).getD 0 ∧
      ((extractFeatures data).getD 1 []).getD k 1 =
        ((data.getD k {}).relativeYAcceleration).getD 0 ∧
      ((extractFeatures data).getD 2 []).getD k 1 =
        ((data.getD k {}).stabilityRatio).getD 0 := by
  refine ⟨getItem_wellShaped content ds fuel idx data hc hlen, ?_, ?_⟩
  · rw [npShape_extractFeatures, hlen]
  · intro k hk
    have hk' : k < data.length := by rw [hlen]; exact hk
    refine ⟨?_, ?_, ?_⟩ <;>
      simp [extractFeatures, List.getD_eq_getElem?_getD, List.getElem?_eq_getElem hk',
        List.getElem?_map]

/-- Witness for C1 at a concrete defective sample: index 0 of `dsW` parses
with zero frames, so its lookup result equals the lookup of index
`(0 + 1) % 2 = 1`. -/
theorem claim_C1_witness :
    0 < dsW.size ∧
    (getItem contentW dsW (5 + 1) 0).1 = (getItem contentW dsW 5 ((0 + 1) % dsW.size)).1 :=
  ⟨by decide, claim_C1_defective_skip_forward contentW dsW 0 [] (by decide) (by decide)
    (by decide) 5⟩

/-- Witness for C4: the malformed file of `dsW` (index 1) yields the all-zero
matrix with label 0 and the logged failure. -/
theorem claim_C4_witness :
    getItem contentW dsW (3 + 1) 1 =
      (some (torchZeros, 0),
        ["Errore nel leggere il file JSON: " ++ dsW.data_files.getD 1 ""]) ∧
    npShape torchZeros = (3, WINDOW_SIZE) ∧
    ∀ row ∈ torchZeros, ∀ x ∈ row, x = 0 :=
  claim_C4_malformed_zero_substitution contentW dsW 1 3 (by decide)

/-- Witness for C6 at a concrete well-formed sample. -/
theorem claim_C6_witness :
    getItem contentGood dsW (0 + 1) 0 =
      (some (extractFeatures framesTwentyFive, dsW.labels.getD 0 0), []) ∧
    npShape (extractFeatures framesTwentyFive) = (3, WINDOW_SIZE) ∧
    ∀ k, k < WINDOW_SIZE →
      ((extractFeatures framesTwentyFive).getD 0 []).getD k 1 =
        ((framesTwentyFive.getD k {}).relativeYVelocity).getD 0 ∧
      ((extractFeatures framesTwentyFive).getD 1 []).getD k 1 =
        ((framesTwentyFive.getD k {}).relativeYAcceleration).getD 0 ∧
      ((extractFeatures framesTwentyFive).getD 2 []).getD k 1 =
        ((framesTwentyFive.getD k {}).stabilityRatio).getD 0 :=
  claim_C6_valid_sample_matrix contentGood dsW 0 0 framesTwentyFive (by decide) (by decide)

/-- C2 as stated is refuted: over `dsBad` (one sample file, a wrong-shaped
but valid JSON array), the skip-forward recovery loops through index 0
forever, so `__getitem__(0)` never returns — no amount of fuel yields a
result, modelling the `RecursionError` that escapes `get(0)`. -/
theorem claim_C2_counterexample :
    ¬ ∃ fuel r, (getItem contentBad dsBad fuel 0).1 = some r := by
  have hnone : ∀ fuel, (getItem contentBad dsBad fuel 0).1 = none := by
    intro fuel
    induction fuel with
    | zero => rfl
    | succ fuel ih =>
        have hc : contentBad (dsBad.data_files.getD 0 "") = FileContent.frames [] := by decide
        have hshape : npShape (extractFeatures ([] : List Frame)) ≠ (NUM_FEATURES, WINDOW_SIZE) := by
          decide
        rw [getItem_wrongShape contentBad dsBad fuel 0 [] hc hshape]
        have hidx : (0 + 1) % dsBad.size = 0 := by decide
        rw [hidx]
        exact ih
  rintro ⟨fuel, r, hr⟩
  rw [hnone fuel] at hr
  exact Option.noConfusion hr

/-- C2 amended: a malformed-JSON or wrong-shaped sample never escapes
`get(i)` with an exception *provided* some index of the dataset is
recoverable in one step (malformed, or correctly shaped); the skip-forward
chain then reaches it within `size()` steps, so enough fuel produces a
result.  (Without that proviso the recursion can run forever, as the
counterexample shows.) -/
theorem claim_C2_amended_local_recovery (content : String → FileContent)
    (ds : DatasetEntries) (h : ∃ j, j < ds.size ∧ recoverableAt content ds j) :
    ∀ idx, idx < ds.size → ∃ fuel r, (getItem content ds fuel idx).1 = some r := by
  rcases h with ⟨j, hj, hjrec⟩
  intro idx hidx
  have hd : (idx + (j + ds.size - idx)) % ds.size = j := by
    have : idx + (j + ds.size - idx) = j + ds.size := by omega
    rw [this, Nat.add_mod_right, Nat.mod_eq_of_lt hj]
  have hsome := getItem_isSome_of_reaches content ds (j + ds.size - idx) idx hidx
    (by rw [hd]; exact hjrec)
  rcases Option.isSome_iff_exists.mp hsome with ⟨r, hr⟩
  exact ⟨j + ds.size - idx + 1, r, hr⟩

/-- Witness for the amended C2: over `dsW` with `contentW`, index 1 is
malformed (hence recoverable), so the wrong-shaped index 0 still resolves. -/
theorem claim_C2_witness :
    ∃ fuel r, (getItem contentW dsW fuel 0).1 = some r :=
  claim_C2_amended_local_recovery contentW dsW ⟨1, by decide, Or.inl (by decide)⟩ 0 (by decide)

/-- C3 as stated is refuted: on an empty dataset both scripts do halt before
any work, but via a bare `exit()`, i.e. `SystemExit(None)`, whose process
exit status is `0`, not non-zero. -/
theorem claim_C3_counterexample :
    trainSetup fsEmpty = SetupOutcome.exited 0 ∧
    evalSetup fsEmpty = SetupOutcome.exited 0 ∧
    ¬ ∃ c, c ≠ 0 ∧ trainSetup fsEmpty = SetupOutcome.exited c := by
  refine ⟨by decide, by decide, ?_⟩
  rintro ⟨c, hc, h⟩
  have h0 : trainSetup fsEmpty = SetupOutcome.exited 0 := by decide
  rw [h0] at h
  exact hc (SetupOutcome.exited.inj h.symm)

/-- C3 amended: whenever enumeration yields zero samples, both the training
and the evaluation script halt before any training/evaluation work starts,
with process exit status `0` (bare `exit()`). -/
theorem claim_C3_amended_empty_dataset_halt (fs : FS) :
    ((buildDataset fs DATA_DIR).size = 0 → trainSetup fs = SetupOutcome.exited 0) ∧
    ((buildDataset fs TEST_DATA_DIR).size = 0 → evalSetup fs = SetupOutcome.exited 0) := by
  constructor
  · intro h
    simp [trainSetup, h]
  · intro h
    simp [evalSetup, h]

/-- Witness for the amended C3 on the empty filesystem. -/
theorem claim_C3_witness :
    trainSetup fsEmpty = SetupOutcome.exited 0 ∧ evalSetup fsEmpty = SetupOutcome.exited 0 :=
  ⟨(claim_C3_amended_empty_dataset_halt fsEmpty).1 (by decide),
   (claim_C3_amended_empty_dataset_halt fsEmpty).2 (by decide)⟩

/-- C7: for every root directory, `size()` equals the number of `*.json`
files across the two class subdirectories, and each missing class
subdirectory contributes nothing except a printed warning. -/
theorem claim_C7_size_counts_json_files (fs : FS) (dir : String) :
    (buildDataset fs dir).size =
      jsonFileCount (fs.listDir (dir ++ "/" ++ "sfondo")) +
        jsonFileCount (fs.listDir (dir ++ "/" ++ "tap")) ∧
    (fs.listDir (dir ++ "/" ++ "sfondo") = none →
      ("Attenzione: La cartella " ++ (dir ++ "/" ++ "sfondo") ++ " non esiste.") ∈
        (buildDataset fs dir).log) ∧
    (fs.listDir (dir ++ "/" ++ "tap") = none →
      ("Attenzione: La cartella " ++ (dir ++ "/" ++ "tap") ++ " non esiste.") ∈
        (buildDataset fs dir).log) := by
  cases h1 : fs.listDir (dir ++ "/" ++ "sfondo") <;>
    cases h2 : fs.listDir (dir ++ "/" ++ "tap") <;>
      simp [buildDataset, label_map, DatasetEntries.size, jsonFileCount, h1, h2]

/-- Witness for C7 on `fsW`: two `*.json` files under `sfondo`, a missing
`tap` directory, and the corresponding warning. -/
theorem claim_C7_witness :
    (buildDataset fsW DATA_DIR).size =
      jsonFileCount (fsW.listDir (DATA_DIR ++ "/" ++ "sfondo")) +
        jsonFileCount (fsW.listDir (DATA_DIR ++ "/" ++ "tap")) ∧
    ("Attenzione: La cartella " ++ (DATA_DIR ++ "/" ++ "tap") ++ " non esiste.") ∈
      (buildDataset fsW DATA_DIR).log :=
  ⟨(claim_C7_size_counts_json_files fsW DATA_DIR).1,
   (claim_C7_size_counts_json_files fsW DATA_DIR).2.2 (by decide)⟩

/-- C9: the entry sequence is a function of the two class-directory listings
alone (two constructions over filesystems that enumerate those directories
identically produce identical entries), and its insertion order is
directory order (`sfondo` then `tap`) with each directory's `*.json` files
in listing order. -/
theorem claim_C9_deterministic_enumeration_order (fs1 fs2 : FS) (dir : String)
    (h1 : fs1.listDir (dir ++ "/" ++ "sfondo") = fs2.listDir (dir ++ "/" ++ "sfondo"))
    (h2 : fs1.listDir (dir ++ "/" ++ "tap") = fs2.listDir (dir ++ "/" ++ "tap")) :
    buildDataset fs1 dir = buildDataset fs2 dir ∧
    ∀ l1 l2, fs1.listDir (dir ++ "/" ++ "sfondo") = some l1 →
      fs1.listDir (dir ++ "/" ++ "tap") = some l2 →
      (buildDataset fs1 dir).data_files =
        (l1.filter (fun f => endswith f ".json")).map
            (fun f => dir ++ "/" ++ "sfondo" ++ "/" ++ f) ++
          (l2.filter (fun f => endswith f ".json")).map
            (fun f => dir ++ "/" ++ "tap" ++ "/" ++ f) ∧
      (buildDataset fs1 dir).labels =
        List.replicate (l1.filter (fun f => endswith f ".json")).length 0 ++
          List.replicate (l2.filter (fun f => endswith f ".json")).length 1 := by
  constructor
  · simp only [buildDataset, label_map, List.foldl]
    rw [h1, h2]
  · intro l1 l2 hl1 hl2
    constructor <;> simp [buildDataset, label_map, hl1, hl2, List.map_const']

/-- Witness for C9: `fsA` and `fsA2` agree on the two class directories but
differ elsewhere, and the entries come out in directory-then-filename
order. -/
theorem claim_C9_witness :
    buildDataset fsA DATA_DIR = buildDataset fsA2 DATA_DIR ∧
    (buildDataset fsA DATA_DIR).data_files =
      ["dataset/train/sfondo/a.json", "dataset/train/tap/t1.json",
        "dataset/train/tap/t2.json"] ∧
    (buildDataset fsA DATA_DIR).labels = [0, 1, 1] := by
  have h := claim_C9_deterministic_enumeration_order fsA fsA2 DATA_DIR (by decide) (by decide)
  have h2 := h.2 ["a.json", "nope.txt"] ["t1.json", "t2.json"] (by decide) (by decide)
  refine ⟨h.1, ?_, ?_⟩
  · rw [h2.1]
    decide
  · rw [h2.2]
    decide

/-! ### Helper lemmas about the Batch Assembler -/

/-- Unfolding `batchAccum` when the incoming sample completes a batch. -/
lemma batchAccum_cons_full (b : Nat) (dl : Bool) (x : α) (xs acc : List α)
    (h : (x :: acc).length = b) :
    batchAccum b dl acc (x :: xs) = (x :: acc).reverse :: batchAccum b dl [] xs := by
  simp only [batchAccum]
  rw [if_pos h]

/-- Unfolding `batchAccum` when the incoming sample leaves the batch
under-sized. -/
lemma batchAccum_cons_part (b : Nat) (dl : Bool) (x : α) (xs acc : List α)
    (h : (x :: acc).length ≠ b) :
    batchAccum b dl acc (x :: xs) = batchAccum b dl (x :: acc) xs := by
  simp only [batchAccum]
  rw [if_neg h]

/-- With `drop_last` off, the emitted batches concatenate to the current
batch (in order) followed by the remaining samples. -/
lemma batchAccum_flatten_keep (b : Nat) :
    ∀ (l acc : List α), (batchAccum b false acc l).flatten = acc.reverse ++ l := by
  intro l
  induction l with
  | nil =>
      intro acc
      cases acc <;> simp [batchAccum]
  | cons x xs ih =>
      intro acc
      by_cases h : (x :: acc).length = b
      · rw [batchAccum_cons_full b false x xs acc h]
        simp [ih []]
      · rw [batchAccum_cons_part b false x xs acc h]
        simpa using ih (x :: acc)

/-- With `drop_last` on, exactly `⌊(|acc| + |l|) / b⌋` batches are emitted. -/
lemma batchAccum_length_drop (b : Nat) (hb : 0 < b) :
    ∀ (l acc : List α), acc.length < b →
      (batchAccum b true acc l).length = (acc.length + l.length) / b := by
  intro l
  induction l with
  | nil =>
      intro acc hacc
      simp [batchAccum, Nat.div_eq_of_lt hacc]
  | cons x xs ih =>
      intro acc hacc
      by_cases h : (x :: acc).length = b
      · rw [batchAccum_cons_full b true x xs acc h]
        have hrest := ih [] (by simpa using hb)
        have hc : acc.length + (x :: xs).length = xs.length + b := by
          simp only [List.length_cons] at h ⊢
          omega
        rw [hc, Nat.add_div_right _ hb]
        simp only [List.length_cons, hrest, List.length_nil, Nat.zero_add]
      · rw [batchAccum_cons_part b true x xs acc h]
        have hacc' : (x :: acc).length < b := by
          simp only [List.length_cons] at h ⊢
          omega
        rw [ih (x :: acc) hacc']
        simp only [List.length_cons]
        congr 1
        omega

/-- With `drop_last` on, every emitted batch has exactly `b` samples. -/
lemma batchAccum_full_drop (b : Nat) :
    ∀ (l acc : List α), ∀ c ∈ batchAccum b true acc l, c.length = b := by
  intro l
  induction l with
  | nil =>
      intro acc c hc
      simp [batchAccum] at hc
  | cons x xs ih =>
      intro acc c hc
      by_cases h : (x :: acc).length = b
      · rw [batchAccum_cons_full b true x xs acc h] at hc
        rcases List.mem_cons.mp hc with hc | hc
        · rw [hc, List.length_reverse]
          exact h
        · exact ih [] c hc
      · rw [batchAccum_cons_part b true x xs acc h] at hc
        exact ih (x :: acc) c hc

/-- C8: with `drop_last` on (training) a pass over `l` produces exactly
`⌊|l| / b⌋` batches, all of size `b`; with `drop_last` off (evaluation) the
batches concatenate back to `l`, so every sample is scored exactly once; in
particular 5 samples with batch size 2 give 2 batches consuming samples
0–3 and dropping the last. -/
theorem claim_C8_batching (b : Nat) (hb : 0 < b) (l : List Nat) :
    (batches b true l).length = l.length / b ∧
    (∀ c ∈ batches b true l, c.length = b) ∧
    (batches b false l).flatten = l ∧
    (batches 2 true (List.range 5)).length = 2 ∧
    (batches 2 true (List.range 5)).flatten = [0, 1, 2, 3] := by
  refine ⟨?_, ?_, ?_, by decide, by decide⟩
  · simpa [batches] using batchAccum_length_drop b hb l [] (by simpa using hb)
  · exact fun c hc => batchAccum_full_drop b l [] c hc
  · simpa [batches] using batchAccum_flatten_keep b l []

/-- Witness for C8 at batch size 3 over 7 samples. -/
theorem claim_C8_witness :
    (batches 3 true (List.range 7)).length = (List.range 7).length / 3 ∧
    (batches 3 false (List.range 7)).flatten = List.range 7 :=
  ⟨(claim_C8_batching 3 (by decide) (List.range 7)).1,
   (claim_C8_batching 3 (by decide) (List.range 7)).2.2.1⟩

/-- C10: a non-empty training dataset smaller than `BATCH_SIZE = 16` yields
zero `drop_last` batches per epoch, so the first epoch's inner loop runs
zero iterations and the per-epoch `loss.item()` print reads the
never-assigned `loss` variable: the run aborts with a `NameError` instead
of completing the 500 epochs. -/
theorem claim_C10_small_dataset_name_error (n : Nat) (_h0 : 0 < n) (h16 : n < 16) :
    (batches BATCH_SIZE true (List.range n)).length = 0 ∧
    trainingRun n = TrainRun.nameError := by
  have hlen : (batches BATCH_SIZE true (List.range n)).length = 0 := by
    have h := batchAccum_length_drop BATCH_SIZE (by decide) (List.range n) [] (by decide)
    simp only [batches, h, List.length_nil, List.length_range, Nat.zero_add]
    exact Nat.div_eq_of_lt h16
  refine ⟨hlen, ?_⟩
  simp only [trainingRun, hlen]
  decide

/-- Witness for C10 on a 5-sample dataset. -/
theorem claim_C10_witness :
    (batches BATCH_SIZE true (List.range 5)).length = 0 ∧
    trainingRun 5 = TrainRun.nameError :=
  claim_C10_small_dataset_name_error 5 (by decide) (by decide)

/-! ### Helper lemmas about the evaluation metrics -/

/-- The number of matching `(true, predicted)` pairs equals the number of
positions `k` at which the two sequences agree. -/
lemma zip_match_count_eq_positions :
    ∀ (t p : List Nat), t.length = p.length →
      ((t.zip p).filter (fun q => q.1 == q.2)).length =
        ((List.range t.length).filter (fun k => t.getD k 0 == p.getD k 0)).length := by
  intro t
  induction t with
  | nil =>
      intro p _
      simp
  | cons a t ih =>
      intro p hlen
      cases p with
      | nil => simp at hlen
      | cons b p =>
          have hlen' : t.length = p.length := by simpa using hlen
          simp only [List.zip_cons_cons, List.length_cons, List.range_succ_eq_map,
            List.filter_cons, List.filter_map, List.length_map]
          by_cases hab : a == b
          · simp only [hab, List.getD_cons_zero, if_pos rfl]
            simp [Function.comp_def, List.getD_cons_succ, ih p hlen', hab]
          · simp only [List.getD_cons_zero]
            simp [Function.comp_def, List.getD_cons_succ, ih p hlen', hab]

/-- Row sum of the pair counts: for a fixed true label `i`, the pairs whose
prediction is 0 plus those whose prediction is 1 are exactly the samples
with true label `i`, provided predictions lie in `{0, 1}`. -/
lemma pair_count_row (i : Nat) :
    ∀ (t p : List Nat), t.length = p.length → (∀ x ∈ p, x < 2) →
      ((t.zip p).filter (fun q => q.1 == i && q.2 == 0)).length +
        ((t.zip p).filter (fun q => q.1 == i && q.2 == 1)).length =
        (t.filter (fun x => x == i)).length := by
  intro t
  induction t with
  | nil =>
      intro p _ _
      simp
  | cons a t ih =>
      intro p hlen hp
      cases p with
      | nil => simp at hlen
      | cons b p =>
          have hb : b < 2 := hp b (by simp)
          have hp' : ∀ x ∈ p, x < 2 := fun x hx => hp x (by simp [hx])
          have hlen' : t.length = p.length := by simpa using hlen
          have IH := ih p hlen' hp'
          rcases (by omega : b = 0 ∨ b = 1) with rfl | rfl <;>
            by_cases ha : a = i <;>
              simp [List.filter_cons, ha, Nat.add_assoc, Nat.add_comm, Nat.add_left_comm] <;>
                omega

/-- Column sum of the pair counts: for a fixed predicted label `j`, the
pairs whose true label is 0 plus those whose true label is 1 are exactly
the samples predicted `j`, provided true labels lie in `{0, 1}`. -/
lemma pair_count_col (j : Nat) :
    ∀ (t p : List Nat), t.length = p.length → (∀ x ∈ t, x < 2) →
      ((t.zip p).filter (fun q => q.1 == 0 && q.2 == j)).length +
        ((t.zip p).filter (fun q => q.1 == 1 && q.2 == j)).length =
        (p.filter (fun x => x == j)).length := by
  intro t
  induction t with
  | nil =>
      intro p hlen _
      have : p = [] := by
        cases p with
        | nil => rfl
        | cons c q => simp at hlen
      rw [this]
      simp
  | cons a t ih =>
      intro p hlen ht
      cases p with
      | nil => simp at hlen
      | cons b p =>
          have ha : a < 2 := ht a (by simp)
          have ht' : ∀ x ∈ t, x < 2 := fun x hx => ht x (by simp [hx])
          have hlen' : t.length = p.length := by simpa using hlen
          have IH := ih p hlen' ht'
          rcases (by omega : a = 0 ∨ a = 1) with rfl | rfl <;>
            by_cases hbj : b = j <;>
              simp [List.filter_cons, hbj, Nat.add_assoc, Nat.add_comm, Nat.add_left_comm] <;>
                omega

/-- C5: reported accuracy is the exact fraction of positions where the
prediction equals the true label; the confusion matrix (rows = true class,
columns = predicted class, order `[background, tap]`) has row sums equal to
true-class counts and column sums equal to predicted-class counts; and the
concrete scenario `T = [0,1,1,0]`, `P = [0,1,0,0]` gives accuracy `3/4`
with matrix `[[2,0],[1,1]]`. -/
theorem claim_C5_evaluation_metrics (t p : List Nat) (hlen : t.length = p.length)
    (ht : ∀ x ∈ t, x < 2) (hp : ∀ x ∈ p, x < 2) :
    accuracy_score t p =
      (((List.range t.length).filter (fun k => t.getD k 0 == p.getD k 0)).length : Rat) /
        (t.length : Rat) ∧
    (∀ i, i < 2 → ((confusion_matrix [0, 1] t p).getD i []).sum =
      (t.filter (fun x => x == i)).length) ∧
    (∀ j, j < 2 → ((confusion_matrix [0, 1] t p).map (fun row => row.getD j 0)).sum =
      (p.filter (fun x => x == j)).length) ∧
    accuracy_score [0, 1, 1, 0] [0, 1, 0, 0] = (3 : Rat) / 4 ∧
    confusion_matrix [0, 1] [0, 1, 1, 0] [0, 1, 0, 0] = [[2, 0], [1, 1]] := by
  refine ⟨?_, ?_, ?_, by norm_num [accuracy_score], by decide⟩
  · rw [accuracy_score, zip_match_count_eq_positions t p hlen]
  · intro i hi
    rcases (by omega : i = 0 ∨ i = 1) with rfl | rfl <;>
      · simp only [confusion_matrix, List.map_cons, List.map_nil, List.getD_cons_zero,
          List.getD_cons_succ, List.sum_cons, List.sum_nil, Nat.add_zero]
        rw [← pair_count_row _ t p hlen hp]
  · intro j hj
    rcases (by omega : j = 0 ∨ j = 1) with rfl | rfl <;>
      · simp only [confusion_matrix, List.map_cons, List.map_nil, List.getD_cons_zero,
          List.getD_cons_succ, List.sum_cons, List.sum_nil, Nat.add_zero]
        rw [← pair_count_col _ t p hlen ht]

/-- Witness for C5 on the spec's scenario. -/
theorem claim_C5_witness :
    accuracy_score [0, 1, 1, 0] [0, 1, 0, 0] =
      (((List.range ([0, 1, 1, 0] : List Nat).length).filter
          (fun k => ([0, 1, 1, 0] : List Nat).getD k 0 == ([0, 1, 0, 0] : List Nat).getD k 0)).length : Rat) /
        ((([0, 1, 1, 0] : List Nat).length : Rat)) ∧
    ((confusion_matrix [0, 1] [0, 1, 1, 0] [0, 1, 0, 0]).getD 0 []).sum =
      (([0, 1, 1, 0] : List Nat).filter (fun x => x == 0)).length :=
  ⟨(claim_C5_evaluation_metrics [0, 1, 1, 0] [0, 1, 0, 0] (by decide)
      (by decide) (by decide)).1,
   (claim_C5_evaluation_metrics [0, 1, 1, 0] [0, 1, 0, 0] (by decide)
      (by decide) (by decide)).2.1 0 (by decide)⟩

end TapDetection
